import Mathlib

/-!
Verification of the pricing engine of `src/anastasiia_dashboard.py`
(product-bundle calculator for home-energy-consulting products).

All currency arithmetic of the Python source is embedded over `ℚ`:
the source only multiplies integer amounts by the decimal factors
`0.8`, `0.5` and `0.03`, and every value the claims mention is an
exact decimal.  Areas and unit counts are the positive integers the
input form produces, embedded as `ℕ`.
-/

namespace ProductCalculator

/-- Embedding of `calculate_heizlastberechnung` (src lines 4–16):
heat-load calculation price, returned as
(original_price, discounted_price). -/
def calculate_heizlastberechnung (area_m2 : ℕ) : ℚ × ℚ :=
  if area_m2 ≤ 150 then
    (900, 720)
  else if area_m2 ≤ 250 then
    (1250, 1000)
  else
    let original_price : ℚ := 1000 + 4 * area_m2
    (original_price, original_price * 0.8)

/-- Embedding of `calculate_hydraulischer_abgleich` (src lines 18–30):
hydraulic-balancing price, returned as
(original_price, discounted_price). -/
def calculate_hydraulischer_abgleich (area_m2 : ℕ) : ℚ × ℚ :=
  if area_m2 ≤ 150 then
    (800, 640)
  else if area_m2 ≤ 250 then
    (900, 720)
  else
    let original_price : ℚ := 900 + 4 * area_m2
    (original_price, original_price * 0.8)

/-- Embedding of `calculate_isfp` (src lines 32–54): energy-savings-plan
(iSFP) quote, returned as (original_price, final_price, subsidy). -/
def calculate_isfp (wohneinheiten : ℕ) : ℚ × ℚ × ℚ :=
  let p : ℚ × ℚ :=
    if wohneinheiten ≤ 2 then (1300, 650)
    else if wohneinheiten ≤ 9 then (1700, 850)
    else if wohneinheiten ≤ 19 then (2290, 850)
    else if wohneinheiten ≤ 29 then (3940, 850)
    else if wohneinheiten ≤ 49 then (4940, 850)
    else (5940, 850)
  (p.1, p.1 - p.2, p.2)

/-- The measure type selected in the form: "Heizung" or "Other". -/
inductive Typ where
  | Heizung : Typ
  | Other : Typ
deriving DecidableEq, Repr

/-- Embedding of `calculate_antragstellung` (src lines 56–72):
application fee for a single energy measure, 3% of a
unit-count-dependent base amount. -/
def calculate_antragstellung (wohneinheiten : ℕ) (typ : Typ) : ℚ :=
  let base_amount : ℚ :=
    match typ with
    | Typ.Heizung =>
      if wohneinheiten = 1 then 30000
      else if wohneinheiten ≤ 6 then 30000 + ((wohneinheiten : ℚ) - 1) * 15000
      else 30000 + 5 * 15000 + ((wohneinheiten : ℚ) - 6) * 8000
    | Typ.Other =>
      if wohneinheiten ≤ 11 then 60000 * (wohneinheiten : ℚ)
      else 660000
  base_amount * 0.03

/-- One row of the Antragstellung loop body (src lines 152–165): the
fee, its 50% Förderung subsidy and the final price for one measure. -/
structure AntragDetail where
  typ : Typ
  price : ℚ
  forderung : ℚ
  final : ℚ
deriving Repr

/-- The loop body of src lines 152–165 for a single selected measure. -/
def antragDetail (wohneinheiten : ℕ) (typ : Typ) : AntragDetail :=
  let antrag_price := calculate_antragstellung wohneinheiten typ
  let antrag_forderung := antrag_price * 0.5
  let antrag_final := antrag_price - antrag_forderung
  { typ := typ, price := antrag_price, forderung := antrag_forderung,
    final := antrag_final }

/-- The values computed by `main`'s calculation block (src lines 131–174)
for one press of the Calculate button. -/
structure BundleResult where
  heiz_original : ℚ
  heiz_discounted : ℚ
  heiz_forderung : ℚ
  heiz_final : ℚ
  hydr_original : ℚ
  hydr_discounted : ℚ
  hydr_forderung : ℚ
  hydr_final : ℚ
  isfp_original : ℚ
  isfp_final : ℚ
  isfp_subsidy : ℚ
  antrag_details : List AntragDetail
  antrag_total_original : ℚ
  antrag_total_forderung : ℚ
  antrag_total_final : ℚ
  total_original : ℚ
  total_discounts : ℚ
  total_forderung : ℚ
  total_full_price : ℚ
  total_user_pays : ℚ
deriving Repr

/-- Embedding of `main`'s calculation block (src lines 131–174).  The
Python loop accumulates the per-measure fees and subsidies from 0 by
repeated addition; it is written here as a map followed by sums. -/
def computeBundle (wohneinheiten area_m2 : ℕ) (einzelmassnahmen : List Typ) :
    BundleResult :=
  let heiz := calculate_heizlastberechnung area_m2
  let heiz_original := heiz.1
  let heiz_discounted := heiz.2
  let heiz_forderung := heiz_discounted * 0.5
  let heiz_final := heiz_discounted - heiz_forderung
  let hydr := calculate_hydraulischer_abgleich area_m2
  let hydr_original := hydr.1
  let hydr_discounted := hydr.2
  let hydr_forderung := hydr_discounted * 0.5
  let hydr_final := hydr_discounted - hydr_forderung
  let isfp := calculate_isfp wohneinheiten
  let isfp_original := isfp.1
  let isfp_final := isfp.2.1
  let isfp_subsidy := isfp.2.2
  let antrag_details := einzelmassnahmen.map (antragDetail wohneinheiten)
  let antrag_total_original := (antrag_details.map AntragDetail.price).sum
  let antrag_total_forderung := (antrag_details.map AntragDetail.forderung).sum
  let antrag_total_final := antrag_total_original - antrag_total_forderung
  { heiz_original := heiz_original
    heiz_discounted := heiz_discounted
    heiz_forderung := heiz_forderung
    heiz_final := heiz_final
    hydr_original := hydr_original
    hydr_discounted := hydr_discounted
    hydr_forderung := hydr_forderung
    hydr_final := hydr_final
    isfp_original := isfp_original
    isfp_final := isfp_final
    isfp_subsidy := isfp_subsidy
    antrag_details := antrag_details
    antrag_total_original := antrag_total_original
    antrag_total_forderung := antrag_total_forderung
    antrag_total_final := antrag_total_final
    total_original := heiz_original + hydr_original + isfp_original +
      antrag_total_original
    total_discounts := (heiz_original - heiz_discounted) +
      (hydr_original - hydr_discounted)
    total_forderung := heiz_forderung + hydr_forderung + isfp_subsidy +
      antrag_total_forderung
    total_full_price := heiz_discounted + hydr_discounted + isfp_final +
      antrag_total_original
    total_user_pays := heiz_final + hydr_final + isfp_final +
      antrag_total_final }

/-- Modelled from the spec: the per-unit-count base cap of the
investment-cost ceiling (§4.1) is not present in
`src/anastasiia_dashboard.py`; 1 unit→30000, 2–6 units→30000 plus
15000 per additional unit, 7+ units→105000 plus 8000 per unit
above 6. -/
def baseCap (wohneinheiten : ℕ) : ℚ :=
  if wohneinheiten = 1 then 30000
  else if wohneinheiten ≤ 6 then 30000 + 15000 * ((wohneinheiten : ℚ) - 1)
  else 105000 + 8000 * ((wohneinheiten : ℚ) - 6)

/-- Modelled from the spec: the investment-cost ceiling (§4.1) is not
present in `src/anastasiia_dashboard.py`; it is the base cap minus the
sum of the undiscounted product prices plus 900 per unit. -/
def investmentCeiling (wohneinheiten area_m2 : ℕ) (einzelmassnahmen : List Typ) : ℚ :=
  baseCap wohneinheiten -
    ((computeBundle wohneinheiten area_m2 einzelmassnahmen).total_original +
      900 * wohneinheiten)

/-- Both pricing functions always return a discounted price of 80% of
the original price. -/
lemma heiz_discount_eq (a : ℕ) :
    (calculate_heizlastberechnung a).2 = (calculate_heizlastberechnung a).1 * 0.8 := by
  unfold calculate_heizlastberechnung
  split_ifs <;> norm_num

lemma hydr_discount_eq (a : ℕ) :
    (calculate_hydraulischer_abgleich a).2 = (calculate_hydraulischer_abgleich a).1 * 0.8 := by
  unfold calculate_hydraulischer_abgleich
  split_ifs <;> norm_num

lemma heiz_original_pos (a : ℕ) : 0 < (calculate_heizlastberechnung a).1 := by
  unfold calculate_heizlastberechnung
  split_ifs <;> simp <;> positivity

lemma hydr_original_pos (a : ℕ) : 0 < (calculate_hydraulischer_abgleich a).1 := by
  unfold calculate_hydraulischer_abgleich
  split_ifs <;> simp <;> positivity

/-- C1: the claim's large-area formula `1000 + 4×(area − 250)` is not the
code's: at area = 300 the code returns an original price of 2200, not
1000 + 4×(300 − 250) = 1200. -/
theorem C1_counterexample :
    (calculate_heizlastberechnung 300).1 = 2200 ∧
    ((2200 : ℚ) ≠ 1000 + 4 * (300 - 250)) := by
  constructor
  · norm_num [calculate_heizlastberechnung]
  · norm_num

/-- C1 (amended): the Heat-Load original price follows the bracket
table area ≤ 150 → 900, 150 < area ≤ 250 → 1250, and
area > 250 → 1000 + 4×area. -/
theorem C1_heizlast_bracket_table (a : ℕ) :
    (a ≤ 150 → (calculate_heizlastberechnung a).1 = 900) ∧
    (150 < a → a ≤ 250 → (calculate_heizlastberechnung a).1 = 1250) ∧
    (250 < a → (calculate_heizlastberechnung a).1 = 1000 + 4 * (a : ℚ)) := by
  unfold calculate_heizlastberechnung
  refine ⟨?_, ?_, ?_⟩ <;> intros <;> split_ifs <;>
    (try (exfalso; omega)) <;> norm_num

/-- C1 witness: the large-area bracket at area = 300. -/
theorem C1_heizlast_bracket_table_witness :
    250 < 300 ∧ (calculate_heizlastberechnung 300).1 = 1000 + 4 * ((300 : ℕ) : ℚ) :=
  ⟨by norm_num, (C1_heizlast_bracket_table 300).2.2 (by norm_num)⟩

/-- C4: the claim's large-area formula `900 + 4×(area − 250)` is not the
code's: at area = 300 the code returns an original price of 2100, not
900 + 4×(300 − 250) = 1100. -/
theorem C4_counterexample :
    (calculate_hydraulischer_abgleich 300).1 = 2100 ∧
    ((2100 : ℚ) ≠ 900 + 4 * (300 - 250)) := by
  constructor
  · norm_num [calculate_hydraulischer_abgleich]
  · norm_num

/-- C4 (amended): the Hydraulic-Balancing original price follows the
bracket table area ≤ 150 → 800, 150 < area ≤ 250 → 900, and
area > 250 → 900 + 4×area; the discounted price is always 80% of the
original, exactly as for Heat-Load. -/
theorem C4_hydraulisch_bracket_table (a : ℕ) :
    ((a ≤ 150 → (calculate_hydraulischer_abgleich a).1 = 800) ∧
     (150 < a → a ≤ 250 → (calculate_hydraulischer_abgleich a).1 = 900) ∧
     (250 < a → (calculate_hydraulischer_abgleich a).1 = 900 + 4 * (a : ℚ))) ∧
    (calculate_hydraulischer_abgleich a).2 = (calculate_hydraulischer_abgleich a).1 * 0.8 ∧
    (calculate_heizlastberechnung a).2 = (calculate_heizlastberechnung a).1 * 0.8 := by
  refine ⟨⟨?_, ?_, ?_⟩, hydr_discount_eq a, heiz_discount_eq a⟩ <;>
    unfold calculate_hydraulischer_abgleich <;> intros <;> split_ifs <;>
      (try (exfalso; omega)) <;> norm_num

/-- C4 witness: the large-area bracket at area = 300. -/
theorem C4_hydraulisch_bracket_table_witness :
    250 < 300 ∧ (calculate_hydraulischer_abgleich 300).1 = 900 + 4 * ((300 : ℕ) : ℚ) :=
  ⟨by norm_num, (C4_hydraulisch_bracket_table 300).1.2.2 (by norm_num)⟩

/-- C2: at unitCount = 1, area = 100 and no extra measures, BOTH
Heat-Load and Hydraulic-Balancing receive the 20% discount, so it is
false that exactly one of them does; in particular the hydraulic
discounted price is 640, not the full price 800 the spec's example
gives for an included Energy Plan. -/
theorem C2_counterexample :
    (computeBundle 1 100 []).heiz_discounted < (computeBundle 1 100 []).heiz_original ∧
    (computeBundle 1 100 []).hydr_discounted < (computeBundle 1 100 []).hydr_original ∧
    (computeBundle 1 100 []).hydr_discounted = 640 := by
  norm_num [computeBundle, calculate_heizlastberechnung,
    calculate_hydraulischer_abgleich]

/-- C2 (amended): in every computed bundle both Heat-Load and
Hydraulic-Balancing receive the 20% discount — each discounted price is
80% of its original and strictly below it; the code has no Energy-Plan
toggle (the Energy Plan is always included), so the discount never
flips. -/
theorem C2_both_discounted (w a : ℕ) (ms : List Typ) :
    (computeBundle w a ms).heiz_discounted = (computeBundle w a ms).heiz_original * 0.8 ∧
    (computeBundle w a ms).hydr_discounted = (computeBundle w a ms).hydr_original * 0.8 ∧
    (computeBundle w a ms).heiz_discounted < (computeBundle w a ms).heiz_original ∧
    (computeBundle w a ms).hydr_discounted < (computeBundle w a ms).hydr_original := by
  have h1 := heiz_discount_eq a
  have h2 := hydr_discount_eq a
  have p1 := heiz_original_pos a
  have p2 := hydr_original_pos a
  simp only [computeBundle]
  exact ⟨h1, h2, by rw [h1]; linarith, by rw [h2]; linarith⟩

/-- C3: the code never returns a discounted price equal to the original
price — the `applyDiscount = false` behaviour the claim describes does
not exist; at area = 100 both products have discounted ≠ original. -/
theorem C3_counterexample :
    (calculate_heizlastberechnung 100).2 ≠ (calculate_heizlastberechnung 100).1 ∧
    (calculate_hydraulischer_abgleich 100).2 ≠ (calculate_hydraulischer_abgleich 100).1 := by
  norm_num [calculate_heizlastberechnung, calculate_hydraulischer_abgleich]

/-- C3 (amended): the pricing functions take no applyDiscount flag; for
every area the discounted price equals 0.8 × the original price
unconditionally, and never equals the original price. -/
theorem C3_discount_unconditional (a : ℕ) :
    (calculate_heizlastberechnung a).2 = 0.8 * (calculate_heizlastberechnung a).1 ∧
    (calculate_hydraulischer_abgleich a).2 = 0.8 * (calculate_hydraulischer_abgleich a).1 ∧
    (calculate_heizlastberechnung a).2 ≠ (calculate_heizlastberechnung a).1 ∧
    (calculate_hydraulischer_abgleich a).2 ≠ (calculate_hydraulischer_abgleich a).1 := by
  have h1 := heiz_discount_eq a
  have h2 := hydr_discount_eq a
  have p1 := heiz_original_pos a
  have p2 := hydr_original_pos a
  refine ⟨by rw [h1]; ring, by rw [h2]; ring, ?_, ?_⟩
  · rw [h1]; intro h; nlinarith
  · rw [h2]; intro h; nlinarith

/-- Per-measure final prices sum to the fee total minus the subsidy
total, since each final price is fee minus subsidy. -/
lemma antrag_final_sum (w : ℕ) (ms : List Typ) :
    ((ms.map (antragDetail w)).map AntragDetail.final).sum =
      ((ms.map (antragDetail w)).map AntragDetail.price).sum -
        ((ms.map (antragDetail w)).map AntragDetail.forderung).sum := by
  induction ms with
  | nil => simp
  | cons t ts ih =>
    simp only [List.map_cons, List.sum_cons, ih, antragDetail]
    ring

/-- C5: at unitCount = 1, area = 100 and no measures the code's totals
are fullPrice = 2010, subsidy = 1330, userPays = 1330 — not the 2820 /
1410 / 1410 the claim's example asserts. -/
theorem C5_counterexample :
    (computeBundle 1 100 []).total_full_price = 2010 ∧
    (computeBundle 1 100 []).total_forderung = 1330 ∧
    (computeBundle 1 100 []).total_user_pays = 1330 ∧
    ((2010 : ℚ) ≠ 2820 ∧ (1330 : ℚ) ≠ 1410) := by
  norm_num [computeBundle, calculate_heizlastberechnung,
    calculate_hydraulischer_abgleich, calculate_isfp]

/-- C5 (amended): each total is a plain sum of per-product values with
no double counting — fullPrice sums the two discounted prices, the
Energy-Plan final price and the undiscounted measure fees; userPays
sums the four final values; totalSubsidy sums the four subsidy values;
at unitCount = 1, area = 100 with no measures the totals are 2010,
1330 and 1330. -/
theorem C5_totals_are_sums :
    (∀ (w a : ℕ) (ms : List Typ),
      (computeBundle w a ms).total_full_price =
        (calculate_heizlastberechnung a).2 + (calculate_hydraulischer_abgleich a).2 +
          (calculate_isfp w).2.1 + ((ms.map (antragDetail w)).map AntragDetail.price).sum ∧
      (computeBundle w a ms).total_user_pays =
        (computeBundle w a ms).heiz_final + (computeBundle w a ms).hydr_final +
          (computeBundle w a ms).isfp_final +
          ((ms.map (antragDetail w)).map AntragDetail.final).sum ∧
      (computeBundle w a ms).total_forderung =
        (computeBundle w a ms).heiz_forderung + (computeBundle w a ms).hydr_forderung +
          (computeBundle w a ms).isfp_subsidy +
          ((ms.map (antragDetail w)).map AntragDetail.forderung).sum) ∧
    (computeBundle 1 100 []).total_full_price = 2010 ∧
    (computeBundle 1 100 []).total_forderung = 1330 ∧
    (computeBundle 1 100 []).total_user_pays = 1330 := by
  refine ⟨fun w a ms => ⟨?_, ?_, ?_⟩, ?_, ?_, ?_⟩
  · simp only [computeBundle]
  · simp only [computeBundle, antrag_final_sum]; try ring
  · simp only [computeBundle]
  all_goals norm_num [computeBundle, calculate_heizlastberechnung,
    calculate_hydraulischer_abgleich, calculate_isfp]

/-- The iSFP final price is the original price minus the subsidy, by
construction of `calculate_isfp`. -/
lemma isfp_final_eq (w : ℕ) :
    (calculate_isfp w).2.1 = (calculate_isfp w).1 - (calculate_isfp w).2.2 := rfl

/-- C6: for every unitCount ≥ 1 the Energy-Plan quote
(original, final, subsidy) follows the bracket table — ≤2→(1300,650),
≤9→(1700,850), ≤19→(2290,850), ≤29→(3940,850), ≤49→(4940,850),
else (5940,850) — and the final price is original minus subsidy. -/
theorem C6_isfp_bracket_table (w : ℕ) (hw : 1 ≤ w) :
    (calculate_isfp w).2.1 = (calculate_isfp w).1 - (calculate_isfp w).2.2 ∧
    (w ≤ 2 → calculate_isfp w = (1300, 650, 650)) ∧
    (2 < w → w ≤ 9 → calculate_isfp w = (1700, 850, 850)) ∧
    (9 < w → w ≤ 19 → calculate_isfp w = (2290, 1440, 850)) ∧
    (19 < w → w ≤ 29 → calculate_isfp w = (3940, 3090, 850)) ∧
    (29 < w → w ≤ 49 → calculate_isfp w = (4940, 4090, 850)) ∧
    (49 < w → calculate_isfp w = (5940, 5090, 850)) := by
  refine ⟨isfp_final_eq w, ?_, ?_, ?_, ?_, ?_, ?_⟩ <;>
    unfold calculate_isfp <;> intros <;> split_ifs <;>
      (try (exfalso; omega)) <;> norm_num [Prod.ext_iff]

/-- C6 witness: the first bracket at unitCount = 1. -/
theorem C6_isfp_bracket_table_witness :
    1 ≤ 1 ∧ 1 ≤ 2 ∧ calculate_isfp 1 = (1300, 650, 650) :=
  ⟨by norm_num, by norm_num,
    (C6_isfp_bracket_table 1 (by norm_num)).2.1 (by norm_num)⟩

/-- C7: for every unitCount ≥ 1 the measure-application fee is 3% of a
base amount — Heating: 30000 at one unit, 30000 + 15000×(unitCount−1)
up to 6 units, 30000 + 5×15000 + 8000×(unitCount−6) beyond; Other:
60000×unitCount up to 11 units, flat 660000 beyond. -/
theorem C7_antragstellung_price (w : ℕ) (hw : 1 ≤ w) :
    (w = 1 → calculate_antragstellung w Typ.Heizung = 30000 * (3 / 100)) ∧
    (1 < w → w ≤ 6 → calculate_antragstellung w Typ.Heizung =
      (30000 + 15000 * ((w : ℚ) - 1)) * (3 / 100)) ∧
    (6 < w → calculate_antragstellung w Typ.Heizung =
      (30000 + 5 * 15000 + 8000 * ((w : ℚ) - 6)) * (3 / 100)) ∧
    (w ≤ 11 → calculate_antragstellung w Typ.Other =
      (60000 * (w : ℚ)) * (3 / 100)) ∧
    (11 < w → calculate_antragstellung w Typ.Other = 660000 * (3 / 100)) := by
  refine ⟨?_, ?_, ?_, ?_, ?_⟩ <;>
    unfold calculate_antragstellung <;> intros <;> split_ifs <;>
      (try (exfalso; omega)) <;> (norm_num; try ring)

/-- C7 witness: one Heating unit costs 3% of 30000 = 900. -/
theorem C7_antragstellung_price_witness :
    1 ≤ 1 ∧ (1 = 1) ∧ calculate_antragstellung 1 Typ.Heizung = 30000 * (3 / 100) :=
  ⟨by norm_num, rfl,
    (C7_antragstellung_price 1 (by norm_num)).1 rfl⟩

/-- C8: in every bundle the Heat-Load and Hydraulic-Balancing subsidy
is 50% of that product's discounted price and its final price is
discounted minus subsidy; the Energy Plan's final price is its original
price minus its subsidy. -/
theorem C8_subsidy_rule (w a : ℕ) (ms : List Typ) :
    (computeBundle w a ms).heiz_forderung = (computeBundle w a ms).heiz_discounted * (1 / 2) ∧
    (computeBundle w a ms).heiz_final =
      (computeBundle w a ms).heiz_discounted - (computeBundle w a ms).heiz_forderung ∧
    (computeBundle w a ms).hydr_forderung = (computeBundle w a ms).hydr_discounted * (1 / 2) ∧
    (computeBundle w a ms).hydr_final =
      (computeBundle w a ms).hydr_discounted - (computeBundle w a ms).hydr_forderung ∧
    (computeBundle w a ms).isfp_final =
      (computeBundle w a ms).isfp_original - (computeBundle w a ms).isfp_subsidy := by
  simp only [computeBundle]
  refine ⟨by norm_num, trivial, by norm_num, trivial, isfp_final_eq w⟩

/-- C9: the investment-cost ceiling equals the per-unit-count base cap
(1 unit → 30000; 2–6 units → 30000 + 15000 per additional unit;
7+ units → 105000 + 8000 per unit above 6) minus the sum of the
undiscounted product prices plus 900 × unitCount. -/
theorem C9_investment_ceiling (w a : ℕ) (ms : List Typ) (hw : 1 ≤ w) :
    (w = 1 → investmentCeiling w a ms =
      30000 - ((computeBundle w a ms).total_original + 900 * (w : ℚ))) ∧
    (2 ≤ w → w ≤ 6 → investmentCeiling w a ms =
      (30000 + 15000 * ((w : ℚ) - 1)) -
        ((computeBundle w a ms).total_original + 900 * (w : ℚ))) ∧
    (7 ≤ w → investmentCeiling w a ms =
      (105000 + 8000 * ((w : ℚ) - 6)) -
        ((computeBundle w a ms).total_original + 900 * (w : ℚ))) ∧
    (computeBundle w a ms).total_original =
      (computeBundle w a ms).heiz_original + (computeBundle w a ms).hydr_original +
        (computeBundle w a ms).isfp_original +
        ((ms.map (antragDetail w)).map AntragDetail.price).sum := by
  refine ⟨?_, ?_, ?_, by simp only [computeBundle]⟩ <;>
    unfold investmentCeiling baseCap <;> intros <;> split_ifs <;>
      (try (exfalso; omega)) <;> norm_num

/-- C9 witness: one unit, area 100, no measures — the ceiling is the
30000 cap minus the 3000 price sum and the 900 per-unit deduction. -/
theorem C9_investment_ceiling_witness :
    1 ≤ 1 ∧ (1 = 1) ∧ investmentCeiling 1 100 [] =
      30000 - ((computeBundle 1 100 []).total_original + 900 * ((1 : ℕ) : ℚ)) :=
  ⟨by norm_num, rfl, (C9_investment_ceiling 1 100 [] (by norm_num)).1 rfl⟩

/-- C10: every measure-application fee carries a 50% subsidy — each
measure's subsidy and final price both equal half its fee — and these
subsidies and halved finals enter the bundle's total subsidy and total
user-pays. -/
theorem C10_measure_subsidy (w a : ℕ) (ms : List Typ) :
    (computeBundle w a ms).antrag_details = ms.map (antragDetail w) ∧
    (∀ t : Typ, (antragDetail w t).forderung = calculate_antragstellung w t * (1 / 2) ∧
      (antragDetail w t).final = calculate_antragstellung w t * (1 / 2)) ∧
    (computeBundle w a ms).total_forderung =
      (computeBundle w a ms).heiz_forderung + (computeBundle w a ms).hydr_forderung +
        (computeBundle w a ms).isfp_subsidy +
        ((ms.map (antragDetail w)).map AntragDetail.forderung).sum ∧
    (computeBundle w a ms).total_user_pays =
      (computeBundle w a ms).heiz_final + (computeBundle w a ms).hydr_final +
        (computeBundle w a ms).isfp_final +
        ((ms.map (antragDetail w)).map AntragDetail.final).sum := by
  refine ⟨rfl, fun t => ⟨?_, ?_⟩, by simp only [computeBundle], ?_⟩
  · simp only [antragDetail]; norm_num
  · simp only [antragDetail]; ring_nf; try norm_num
  · simp only [computeBundle, antrag_final_sum]; try ring

end ProductCalculator
